import Mathlib

/-!
Verification of the real-time order-book synchronization core of the
pm-tradingdesk dashboard client.

The definitions below are a shallow embedding of the JavaScript sources:

* `src/unnamed/part_003` — `WebSocketClient` (reconnect backoff).
* `src/unnamed/part_004`, first client (`KalshiTradingClient`, "Main"):
  `handleTickerLookup`, `handleMarketUpdate`, `applyOrderbookDelta`,
  `lookupTicker`, together with `UIController.displayOrderbook` from
  `src/src/kalshi/dashboard/static/ui-controller.js` (which stores
  `currentOrderbookData`).
* `src/unnamed/part_004`, second client (`KalshiTradingClient`,
  "Kalshi Trading Dashboard Client"): `parseMessage`, `send`, `batchSend`,
  `handleOpen`, `loadInitialData`.

JavaScript strings are modelled as Lean `String`s, with the handful of
string primitives the code uses (`toLowerCase`, `toUpperCase`, `trim`,
regexp character-class removal) re-implemented over the underlying
character lists so that all definitions evaluate inside the kernel.
JavaScript numbers appearing here are integers throughout (prices, sizes,
counters, millisecond delays), so they are modelled as `Int`/`Nat`.
A possibly-`undefined` JavaScript value is modelled as an `Option`.
-/

namespace PMTD

/-! ### JavaScript primitives -/

/-- Model of `String.prototype.toLowerCase` (ASCII, which is all the code
compares against: the literals `"yes"`/`""`). -/
def jsToLower (s : String) : String := String.mk (s.data.map Char.toLower)

/-- Model of `String.prototype.toUpperCase` (ASCII). -/
def jsToUpper (s : String) : String := String.mk (s.data.map Char.toUpper)

/-- Model of `String.prototype.trim`: strip leading and trailing
whitespace. -/
def jsTrim (s : String) : String :=
  String.mk (((s.data.dropWhile Char.isWhitespace).reverse.dropWhile
      Char.isWhitespace).reverse)

/-- Truthiness of a possibly-`undefined` JavaScript string: `undefined`
and `""` are falsy, every other string is truthy. -/
def strTruthy : Option String → Bool
  | none => false
  | some s => !(s == "")

/-- Model of `a || b` on possibly-`undefined` JavaScript numbers
(`0` and `undefined` are falsy). -/
def jsOrNum (a b : Option Int) : Option Int :=
  match a with
  | some v => if v ≠ 0 then some v else b
  | none => b

/-! ### Order book data model

`currentOrderbookData` (held by `UIController`, mutated by the first
`KalshiTradingClient`) with the fields the synchronizer touches.  A price
level `[price, size]` is a pair of integers. -/

structure Orderbook where
  ticker : String
  yes_bids : List (Int × Int)
  no_bids : List (Int × Int)
  yes_price : Option Int
  no_price : Option Int
deriving DecidableEq, Repr

/-- The comparator `(a, b) => b[0] - a[0]` of
`bids.sort((a, b) => b[0] - a[0])` orders the array descending by price:
`a` comes no later than `b` exactly when `b[0] <= a[0]`. -/
def bidGE (a b : Int × Int) : Prop := b.1 ≤ a.1

instance : DecidableRel bidGE := fun a b => inferInstanceAs (Decidable (b.1 ≤ a.1))

instance : IsTotal (Int × Int) bidGE := ⟨fun a b => le_total b.1 a.1⟩

instance : IsTrans (Int × Int) bidGE := ⟨fun _ _ _ h1 h2 => le_trans h2 h1⟩

/-- Model of `bids.sort((a, b) => b[0] - a[0])`: a stable sort (JavaScript
`Array.prototype.sort` is stable) into descending price order. -/
def sortBidsDesc (bids : List (Int × Int)) : List (Int × Int) :=
  List.insertionSort bidGE bids

/-- Per-side body of `KalshiTradingClient.applyOrderbookDelta`
(`src/unnamed/part_004` lines 351-366): locate the price level, then
remove / update in place / insert-and-resort.  `List.findIdx` returns
`bids.length` when no level matches, mirroring `findIndex` returning `-1`
(the JavaScript tests `index >= 0`, here `index < bids.length`). -/
def applyDeltaSide (bids : List (Int × Int)) (price deltaSize : Int) :
    List (Int × Int) :=
  let index := bids.findIdx (fun l => l.1 == price)
  if h : index < bids.length then
    -- `deltaSize === 0 || bids[index][1] + deltaSize <= 0` → splice out
    if deltaSize = 0 ∨ bids[index].2 + deltaSize ≤ 0 then
      bids.eraseIdx index
    -- `bids[index][1] += deltaSize` (price component untouched)
    else
      bids.set index (bids[index].1, bids[index].2 + deltaSize)
  else
    -- `index === -1`: removal branch's inner `if (index >= 0)` does nothing
    if deltaSize = 0 then bids
    -- `bids.push([price, deltaSize]); bids.sort((a, b) => b[0] - a[0])`
    else if 0 < deltaSize then sortBidsDesc (bids ++ [(price, deltaSize)])
    else bids

/-- An `orderbook_delta` payload (`wsData`): `side`, `price` and `delta`
may each be absent — the code guards
`if (!side || price === undefined || deltaSize === undefined) return`. -/
structure DeltaMsg where
  side : Option String
  price : Option Int
  delta : Option Int
deriving DecidableEq, Repr

/-- Embeds `KalshiTradingClient.applyOrderbookDelta`
(`src/unnamed/part_004` lines 339-370).  The JavaScript reads and writes
`this.ui.currentOrderbookData[bidsKey]`; the surrounding null-check has
already happened in `handleMarketUpdate`, so here the book is passed
explicitly.  Any side string other than `"yes"` (after lowercasing)
selects `no_bids`, exactly as `side === "yes" ? "yes_bids" : "no_bids"`
does. -/
def applyOrderbookDelta (book : Orderbook) (msg : DeltaMsg) : Orderbook :=
  let side? := msg.side.map jsToLower
  match side?, msg.price, msg.delta with
  | some side, some price, some deltaSize =>
    if side = "" then book
    else
      let bids := if side = "yes" then book.yes_bids else book.no_bids
      let newBids := applyDeltaSide bids price deltaSize
      if side = "yes" then { book with yes_bids := newBids }
      else { book with no_bids := newBids }
  | _, _, _ => book

/-! ### The market-update handler and its client state -/

/-- Fields of `data.data.market` read by the `market_update` branch. -/
structure MarketInfo where
  last_price : Option Int
  yes_price : Option Int
  no_price : Option Int
deriving DecidableEq, Repr

/-- Payload of an `orderbook_update` message, discriminated by
`wsData.msg || wsData.type` — the strings `"ticker"`,
`"orderbook_delta"`/`"orderbook_update"`, `"orderbook_snapshot"`; any
other tag falls through every branch (`obOther`). -/
inductive ObUpdate where
  | tickerTop (yes_bid no_bid : Option Int)
  | obDelta (d : DeltaMsg)
  | obSnapshot (yes no : Option (List (Int × Int)))
  | obOther
deriving DecidableEq, Repr

/-- Discriminates `data.type`: `"market_update"` vs `"orderbook_update"`
(the only two types routed to `handleMarketUpdate`). -/
inductive UpdateBody where
  | marketUpdate (market : Option MarketInfo)
  | orderbookUpdate (u : ObUpdate)
deriving DecidableEq, Repr

/-- An inbound message routed to `handleMarketUpdate`; `data.ticker` may
be absent. -/
structure UpdateMsg where
  ticker : Option String
  body : UpdateBody
deriving DecidableEq, Repr

/-- Client/UI state relevant to the synchronizer: `selectedTicker`,
`currentSubscribedTicker` and `currentOrderbookData` live on the
`UIController`; `outbox` records the `wsClient.send(action, {ticker})`
calls the handlers emit, in order. -/
structure UIState where
  selectedTicker : Option String
  currentSubscribedTicker : Option String
  currentOrderbookData : Option Orderbook
  outbox : List (String × String)
deriving DecidableEq, Repr

/-- Embeds `KalshiTradingClient.handleMarketUpdate`
(`src/unnamed/part_004` lines 282-333).  Guards:
`if (!ticker || !this.ui.currentOrderbookData) return;` then
`if (ticker !== this.ui.currentOrderbookData.ticker) return;` — the fence
compares the message's ticker against the ticker of the *currently loaded
book*.  The `displayOrderbook`/`updateLimitPrice` rendering calls have no
effect on this state. -/
def handleMarketUpdate (st : UIState) (msg : UpdateMsg) : UIState :=
  match st.currentOrderbookData with
  | none => st
  | some book =>
    if !(strTruthy msg.ticker) then st
    else
      match msg.ticker with
      | none => st
      | some ticker =>
        if ticker ≠ book.ticker then st
        else
          match msg.body with
          | .marketUpdate market =>
            match market with
            | some m =>
              let book' := { book with
                yes_price := jsOrNum m.last_price m.yes_price,
                no_price := m.no_price }
              { st with currentOrderbookData := some book' }
            | none => st
          | .orderbookUpdate u =>
            match u with
            | .tickerTop yes_bid no_bid =>
              -- `if (yes_bid !== undefined && no_bid !== undefined)`
              match yes_bid, no_bid with
              | some yb, some nb =>
                let book' := { book with
                  yes_price := some yb, no_price := some nb }
                { st with currentOrderbookData := some book' }
              | _, _ => st
            | .obDelta d =>
              { st with currentOrderbookData := some (applyOrderbookDelta book d) }
            | .obSnapshot yes no =>
              -- `wsData.yes || []` / `wsData.no || []`
              let book' := { book with
                yes_bids := yes.getD [], no_bids := no.getD [] }
              { st with currentOrderbookData := some book' }
            | .obOther => st

/-! ### Ticker lookup / subscription switch -/

/-- The `data.market` object of a `ticker_lookup` response (only its
`ticker` field is inspected, via `data.market && data.market.ticker`). -/
structure MarketStub where
  ticker : Option String
deriving DecidableEq, Repr

/-- A `ticker_lookup` response. -/
structure TickerLookupMsg where
  ticker : Option String
  market : Option MarketStub
deriving DecidableEq, Repr

/-- Embeds `KalshiTradingClient.handleTickerLookup`
(`src/unnamed/part_004` lines 247-277).  On success it records the
selected ticker, emits `unsubscribe_market` for a different previously
subscribed ticker, sets `currentSubscribedTicker` and emits
`get_orderbook`; on failure it clears the selection and the book
(`displayOrderbook(null)` sets `currentOrderbookData = null`). -/
def handleTickerLookup (st : UIState) (data : TickerLookupMsg) : UIState :=
  let found := match data.market with
    | some m => strTruthy m.ticker
    | none => false
  if found then
    let st1 := { st with selectedTicker := data.ticker }
    let st2 :=
      if strTruthy st1.currentSubscribedTicker &&
          !(st1.currentSubscribedTicker == data.ticker) then
        { st1 with outbox := st1.outbox ++
            [("unsubscribe_market", st1.currentSubscribedTicker.getD "")] }
      else st1
    { st2 with currentSubscribedTicker := data.ticker,
               outbox := st2.outbox ++ [("get_orderbook", data.ticker.getD "")] }
  else
    { st with selectedTicker := none, currentOrderbookData := none }

/-- Embeds the `orderbook` message handler,
`orderbook: () => this.ui.displayOrderbook(data)`
(`src/unnamed/part_004` line 148) together with
`UIController.displayOrderbook`
(`ui-controller.js` lines 349-377): `currentOrderbookData` is set to the
message (or cleared when the argument is null); the rest is rendering. -/
def handleOrderbookResponse (st : UIState) (data : Option Orderbook) : UIState :=
  { st with currentOrderbookData := data }

/-- The initial `UIController` state (`ui-controller.js` lines 23-24;
`init` then calls `displayOrderbook(null)`). -/
def initialUIState : UIState :=
  { selectedTicker := none, currentSubscribedTicker := none,
    currentOrderbookData := none, outbox := [] }

/-! ### Ticker sanitization (`lookupTicker`) -/

/-- Character class of the regexp `[^A-Z0-9-]` (the characters *kept* by
`.replace(/[^A-Z0-9-]/g, "")`). -/
def isTickerChar (c : Char) : Bool :=
  (decide ('A' ≤ c) && decide (c ≤ 'Z')) ||
  (decide ('0' ≤ c) && decide (c ≤ '9')) || c == '-'

/-- The sanitization pipeline of `KalshiTradingClient.lookupTicker`:
`ticker.trim().toUpperCase().replace(/[^A-Z0-9-]/g, "")`. -/
def sanitizeTicker (ticker : String) : String :=
  String.mk ((jsToUpper (jsTrim ticker)).data.filter isTickerChar)

/-- Embeds `KalshiTradingClient.lookupTicker`
(`src/unnamed/part_004` lines 376-391).  Returns the ticker carried by
the emitted `send("lookup_ticker", { ticker: sanitized })`, or `none`
when the function returns without sending (empty input, or a sanitized
result that is empty or longer than 100 characters — the `showToast`
branch). -/
def lookupTicker (ticker : String) : Option String :=
  if ticker = "" then none
  else
    let sanitized := sanitizeTicker ticker
    if sanitized = "" ∨ sanitized.length > 100 then none
    else some sanitized

/-! ### Reconnect backoff (`WebSocketClient`, `src/unnamed/part_003`) -/

def RECONNECT_BASE_DELAY : Nat := 1000

def RECONNECT_MAX_DELAY : Nat := 30000

/-- The `WebSocketClient` connection state the backoff logic touches. -/
structure WSClient where
  reconnectAttempts : Nat
deriving DecidableEq, Repr

/-- Embeds `WebSocketClient.handleOpen`
(`src/unnamed/part_003` lines 42-51): `this.reconnectAttempts = 0` (the
log line, status-DOM update and `onOpen` callback do not touch this
state). -/
def wsHandleOpen (c : WSClient) : WSClient :=
  { c with reconnectAttempts := 0 }

/-- Embeds `WebSocketClient.handleClose`
(`src/unnamed/part_003` lines 68-84): computes
`delay = Math.min(RECONNECT_MAX_DELAY, RECONNECT_BASE_DELAY * Math.pow(2, this.reconnectAttempts))`,
increments `reconnectAttempts`, and schedules `connect()` after `delay`.
Returns the new state together with the scheduled delay.  (`Math.pow` on
these integer inputs is exact below the cap, and any value at or above
the cap is flattened to `RECONNECT_MAX_DELAY` by `Math.min`, so natural
number arithmetic yields the very delay the code schedules.) -/
def wsHandleClose (c : WSClient) : WSClient × Nat :=
  let delay := min RECONNECT_MAX_DELAY
    (RECONNECT_BASE_DELAY * 2 ^ c.reconnectAttempts)
  ({ c with reconnectAttempts := c.reconnectAttempts + 1 }, delay)

/-- State after `n` consecutive closes (each close both schedules a
reconnect and increments the attempt counter). -/
def wsCloseIter (c : WSClient) : Nat → WSClient
  | 0 => c
  | n + 1 => (wsHandleClose (wsCloseIter c n)).1

/-! ### The compressed-dashboard client
(`KalshiTradingClient`, `src/unnamed/part_004` lines 568-)  -/

/-- A small value universe for message payload fields (`status: "resting"`,
`limit: 20`, `order_id: ...`). -/
inductive JVal where
  | str (v : String)
  | num (v : Int)
deriving DecidableEq, Repr

/-- An outbound message `{ action, ...data }`. -/
structure WsMessage where
  action : String
  data : List (String × JVal)
deriving DecidableEq, Repr

/-- State of the compressed-dashboard client touched by
`send`/`batchSend`/`handleOpen`/`loadInitialData`.  `wsOpen` models
`this.ws.readyState === WebSocket.OPEN`; `transmitted` records the
`this.ws.send(JSON.stringify(message))` calls in order; `requestQueue`
models the JavaScript `Map` as an association list in insertion order. -/
structure ClientState where
  wsOpen : Bool
  reconnectAttempts : Nat
  reconnectDelay : Nat
  messageCount : Nat
  requestQueue : List (String × WsMessage)
  transmitted : List WsMessage
deriving DecidableEq, Repr

/-- JavaScript `Map.prototype.set`: overwrite the value of an existing
key in place, otherwise append the new entry. -/
def mapSet (m : List (String × WsMessage)) (k : String) (v : WsMessage) :
    List (String × WsMessage) :=
  if m.any (fun kv => kv.1 == k) then
    m.map (fun kv => if kv.1 == k then (k, v) else kv)
  else m ++ [(k, v)]

/-- Embeds `KalshiTradingClient.send`
(`src/unnamed/part_004` lines 872-881): transmit when the socket is open
(and bump `messageCount`); otherwise, when `priority` is set, store the
message in `requestQueue` keyed by `action` (the `showMessage` call is
rendering only); otherwise do nothing. -/
def clientSend (st : ClientState) (action : String)
    (data : List (String × JVal)) (priority : Bool) : ClientState :=
  let message : WsMessage := { action := action, data := data }
  if st.wsOpen then
    { st with transmitted := st.transmitted ++ [message],
              messageCount := st.messageCount + 1 }
  else if priority then
    { st with requestQueue := mapSet st.requestQueue action message }
  else st

/-- Embeds `KalshiTradingClient.batchSend`
(`src/unnamed/part_004` lines 887-891): forwards each request through
`send` (without priority) when the socket is open. -/
def batchSend (st : ClientState)
    (requests : List (String × List (String × JVal))) : ClientState :=
  if st.wsOpen then
    requests.foldl (fun s r => clientSend s r.1 r.2 false) st
  else st

def DEFAULT_FILLS_LIMIT : Int := 20

/-- Embeds `KalshiTradingClient.loadInitialData`
(`src/unnamed/part_004` lines 940-947). -/
def loadInitialData (st : ClientState) : ClientState :=
  batchSend st
    [("get_balance", []),
     ("get_positions", []),
     ("get_orders", [("status", JVal.str "resting")]),
     ("get_fills", [("limit", JVal.num DEFAULT_FILLS_LIMIT)])]

def RECONNECT_INITIAL_DELAY : Nat := 1000

/-- Embeds `KalshiTradingClient.handleOpen`
(`src/unnamed/part_004` lines 682-690), entered when the socket has
transitioned to OPEN: resets `reconnectAttempts` and `reconnectDelay`,
then calls `loadInitialData()`.  (The `isConnecting`/`connectionTime`/DOM
updates touch no modelled state.)  Note that `requestQueue` is not read
anywhere in the class outside `send`, so no queued message is replayed
here. -/
def clientHandleOpen (st : ClientState) : ClientState :=
  loadInitialData
    { st with wsOpen := true, reconnectAttempts := 0,
              reconnectDelay := RECONNECT_INITIAL_DELAY }

/-! ### Frame decoding (`parseMessage`) -/

/-- An inbound WebSocket frame: a binary `ArrayBuffer` (a byte list) or a
plain text frame. -/
inductive Frame where
  | binary (bytes : List Nat)
  | text (s : String)
deriving DecidableEq, Repr

/-- The metrics fields `parseMessage` touches
(`this.metrics.compressedCount`, `this.metrics.bytesSaved`); shared state
of the client, read elsewhere by `displayMetrics`. -/
structure DecodeMetrics where
  compressedCount : Nat
  bytesSaved : Int
deriving DecidableEq, Repr

/-- Embeds `KalshiTradingClient.parseMessage`
(`src/unnamed/part_004` lines 713-728).  The external pure primitives are
passed in: `inflate` models `pako.inflate(-, {to: "string"})`, `jparse`
models `JSON.parse`, `textDecode` models `new TextDecoder().decode`.
For a binary frame whose first byte is `0x01` the remainder is inflated
and parsed, and the shared metrics are updated
(`compressedCount++`, `bytesSaved += decompressed.length - compressed.length`);
any other binary frame is text-decoded whole and parsed; a text frame is
parsed directly.  Returns the parsed envelope together with the updated
metrics. -/
def parseMessage {J : Type} (inflate : List Nat → String)
    (jparse : String → J) (textDecode : List Nat → String)
    (frame : Frame) (metrics : DecodeMetrics) : J × DecodeMetrics :=
  match frame with
  | .binary bytes =>
    if bytes.head? = some 1 then
      let compressed := bytes.drop 1
      let decompressed := inflate compressed
      let metrics' := { metrics with
        compressedCount := metrics.compressedCount + 1,
        bytesSaved := metrics.bytesSaved +
          ((decompressed.length : Int) - (compressed.length : Int)) }
      (jparse decompressed, metrics')
    else
      (jparse (textDecode bytes), metrics)
  | .text s => (jparse s, metrics)

/-! ### BookSide invariant machinery -/

/-- The BookSide invariant: strictly descending by price (best bid first,
which forces pairwise-distinct prices) and strictly positive sizes. -/
def SideInv (l : List (Int × Int)) : Prop :=
  l.Pairwise (fun a b => b.1 < a.1) ∧ ∀ p ∈ l, 0 < p.2

instance (l : List (Int × Int)) : Decidable (SideInv l) :=
  inferInstanceAs (Decidable (_ ∧ _))

theorem pairwise_fst_iff {l : List (Int × Int)} :
    l.Pairwise (fun a b => b.1 < a.1) ↔
      (l.map Prod.fst).Pairwise (fun a b : Int => b < a) := by
  rw [List.pairwise_map]

theorem nodup_fst_of_sorted_lt {l : List (Int × Int)}
    (hs : l.Pairwise (fun a b => b.1 < a.1)) : (l.map Prod.fst).Nodup :=
  List.pairwise_map.mpr ((List.pairwise_map.mp (pairwise_fst_iff.mp hs)).imp
    (fun h => ne_of_gt h))

theorem sorted_lt_of_ge_nodup {l : List (Int × Int)}
    (hge : l.Pairwise bidGE) (hnd : (l.map Prod.fst).Nodup) :
    l.Pairwise (fun a b => b.1 < a.1) := by
  have hne : l.Pairwise (fun a b => a.1 ≠ b.1) := List.pairwise_map.mp hnd
  exact (hge.and hne).imp (fun h => lt_of_le_of_ne h.1 (Ne.symm h.2))

theorem list_set_self {α : Type _} :
    ∀ (l : List α) (i : Nat) (h : i < l.length), l.set i l[i] = l := by
  intro l
  induction l with
  | nil => intro i h; simp at h
  | cons a t ih =>
    intro i h
    cases i with
    | zero => rfl
    | succ n =>
      have := ih n (by simpa using h)
      simpa [List.set] using this

theorem findIdx_not_found {bids : List (Int × Int)} {price : Int}
    (h : ¬ bids.findIdx (fun l => l.1 == price) < bids.length) :
    ∀ x ∈ bids, x.1 ≠ price := by
  intro x hx hfx
  exact h (List.findIdx_lt_length.mpr ⟨x, hx, by simp [hfx]⟩)

/-- Preservation of the BookSide invariant by a single delta application
(any of the remove / in-place update / insert-and-resort branches). -/
theorem applyDeltaSide_sideInv (bids : List (Int × Int))
    (price deltaSize : Int) (h : SideInv bids) :
    SideInv (applyDeltaSide bids price deltaSize) := by
  obtain ⟨hs, hpos⟩ := h
  unfold applyDeltaSide
  simp only []
  split
  case isTrue hlt =>
    split
    case isTrue hrem =>
      refine ⟨List.Pairwise.sublist (List.eraseIdx_sublist bids _) hs, ?_⟩
      exact fun p hp => hpos p ((List.eraseIdx_sublist bids _).subset hp)
    case isFalse hrem =>
      push_neg at hrem
      constructor
      · have hmap : ((bids.set (bids.findIdx (fun l => l.1 == price))
            (bids[bids.findIdx (fun l => l.1 == price)].1,
             bids[bids.findIdx (fun l => l.1 == price)].2 + deltaSize)).map
              Prod.fst) = bids.map Prod.fst := by
          rw [List.map_set]
          have hlen : bids.findIdx (fun l => l.1 == price) <
              (bids.map Prod.fst).length := by simpa using hlt
          have hget : (bids.map Prod.fst)[bids.findIdx (fun l => l.1 == price)] =
              bids[bids.findIdx (fun l => l.1 == price)].1 :=
            List.getElem_map Prod.fst
          rw [← hget]
          exact list_set_self _ _ hlen
        exact pairwise_fst_iff.mpr (hmap ▸ pairwise_fst_iff.mp hs)
      · intro p hp
        rcases List.mem_or_eq_of_mem_set hp with hmem | heq
        · exact hpos p hmem
        · rw [heq]
          exact hrem.2
  case isFalse hnlt =>
    have hfresh : ∀ x ∈ bids, x.1 ≠ price := findIdx_not_found hnlt
    split
    case isTrue => exact ⟨hs, hpos⟩
    case isFalse hne =>
      split
      case isTrue hdpos =>
        have hperm : sortBidsDesc (bids ++ [(price, deltaSize)]) |>.Perm
            (bids ++ [(price, deltaSize)]) :=
          List.perm_insertionSort bidGE _
        have hge : (sortBidsDesc (bids ++ [(price, deltaSize)])).Pairwise bidGE :=
          List.sorted_insertionSort bidGE _
        have hnd0 : ((bids ++ [(price, deltaSize)]).map Prod.fst).Nodup := by
          rw [List.map_append]
          rw [List.nodup_append]
          refine ⟨nodup_fst_of_sorted_lt hs, List.nodup_singleton _, ?_⟩
          intro a ha hb
          simp only [List.map_cons, List.map_nil, List.mem_singleton] at hb
          obtain ⟨x, hx, hax⟩ := List.mem_map.mp ha
          exact hfresh x hx (by rw [hax, hb])
        have hnd : ((sortBidsDesc (bids ++ [(price, deltaSize)])).map
            Prod.fst).Nodup :=
          ((hperm.map Prod.fst).symm).nodup hnd0
        refine ⟨sorted_lt_of_ge_nodup hge hnd, ?_⟩
        intro p hp
        rcases List.mem_append.mp (hperm.subset hp) with hmem | hmem
        · exact hpos p hmem
        · rw [List.mem_singleton.mp hmem]
          exact hdpos
      case isFalse => exact ⟨hs, hpos⟩

/-- The invariant is preserved by an arbitrary sequence of delta
applications. -/
theorem applyDeltaSide_foldl_sideInv (bids : List (Int × Int))
    (h : SideInv bids) : ∀ (ds : List (Int × Int)),
    SideInv (ds.foldl (fun b d => applyDeltaSide b d.1 d.2) bids) := by
  intro ds
  induction ds generalizing bids with
  | nil => exact h
  | cons d tl ih => exact ih _ (applyDeltaSide_sideInv bids d.1 d.2 h)

/-- A tombstone delta at an absent price is the identity on the side. -/
theorem applyDeltaSide_absent_zero (bids : List (Int × Int)) (price : Int)
    (hfresh : ∀ x ∈ bids, x.1 ≠ price) :
    applyDeltaSide bids price 0 = bids := by
  unfold applyDeltaSide
  have hnlt : ¬ bids.findIdx (fun l => l.1 == price) < bids.length := by
    intro hlt
    obtain ⟨x, hx, hpx⟩ := List.findIdx_lt_length.mp hlt
    exact hfresh x hx (by simpa using hpx)
  simp only []
  rw [dif_neg hnlt]
  simp

/-! ### Fencing helpers -/

theorem handleMarketUpdate_noBook (st : UIState) (msg : UpdateMsg)
    (h : st.currentOrderbookData = none) : handleMarketUpdate st msg = st := by
  unfold handleMarketUpdate
  rw [h]

theorem handleMarketUpdate_fence (st : UIState) (msg : UpdateMsg)
    (book : Orderbook) (hb : st.currentOrderbookData = some book)
    (hne : msg.ticker ≠ some book.ticker) : handleMarketUpdate st msg = st := by
  unfold handleMarketUpdate
  rw [hb]
  cases hmt : msg.ticker with
  | none => simp [strTruthy]
  | some t =>
    have ht' : t ≠ book.ticker := fun e => hne (by rw [hmt, e])
    by_cases ht : t = ""
    · simp [strTruthy, ht]
    · simp [strTruthy, ht, ht']

theorem handleMarketUpdate_snapshot (st : UIState) (book : Orderbook)
    (yes no : List (Int × Int)) (hne : book.ticker ≠ "")
    (hb : st.currentOrderbookData = some book) :
    (handleMarketUpdate st
        ⟨some book.ticker, .orderbookUpdate (.obSnapshot (some yes) (some no))⟩
      ).currentOrderbookData =
      some { book with yes_bids := yes, no_bids := no } := by
  unfold handleMarketUpdate
  rw [hb]
  simp [strTruthy, hne]

/-! ### Concrete states used by the scenario theorems -/

/-- A book for ticker `"X"`, as loaded by an `orderbook` response. -/
def bookX : Orderbook :=
  { ticker := "X", yes_bids := [], no_bids := [],
    yes_price := none, no_price := none }

def c1_state0 : UIState :=
  { initialUIState with currentOrderbookData := some bookX }

def c1_afterSnapshot : UIState :=
  handleMarketUpdate c1_state0
    ⟨some "X", .orderbookUpdate (.obSnapshot (some [(40, 10)]) (some [(55, 5)]))⟩

def c1_afterDelta1 : UIState :=
  handleMarketUpdate c1_afterSnapshot
    ⟨some "X", .orderbookUpdate (.obDelta ⟨some "yes", some 40, some (-10)⟩)⟩

def c1_final : UIState :=
  handleMarketUpdate c1_afterDelta1
    ⟨some "X", .orderbookUpdate (.obDelta ⟨some "yes", some 41, some 7⟩)⟩

/-- The switch-race state, reached by a real trace: look up `"A"`, load
`"A"`'s book, then look up (switch to) `"B"` — `"B"`'s book has not
arrived yet, so `currentSubscribedTicker = "B"` while
`currentOrderbookData` still holds `"A"`'s book. -/
def fenceRaceState : UIState :=
  handleTickerLookup
    (handleOrderbookResponse
      (handleTickerLookup initialUIState ⟨some "A", some ⟨some "A"⟩⟩)
      (some { ticker := "A", yes_bids := [(50, 5)], no_bids := [],
              yes_price := none, no_price := none }))
    ⟨some "B", some ⟨some "B"⟩⟩

/-- A delayed delta still carrying the old ticker `"A"`. -/
def delayedDeltaA : UpdateMsg :=
  ⟨some "A", .orderbookUpdate (.obDelta ⟨some "yes", some 40, some 7⟩)⟩

/-- A snapshot for the newly subscribed ticker `"B"`. -/
def snapshotForB : UpdateMsg :=
  ⟨some "B", .orderbookUpdate (.obSnapshot (some [(60, 1)]) (some []))⟩

/-! ### Claim theorems -/

/-- C1: starting from a loaded (empty) book for the active ticker `"X"`,
applying the snapshot `{ticker:"X", yes:[[40,10]], no:[[55,5]]}` and then
the deltas `(side:"yes", price:40, delta:-10)` and
`(side:"yes", price:41, delta:7)` yields `yesBids = [(41,7)]` and
`noBids = [(55,5)]`: the snapshot installs both sides, the exhausting
delta removes level 40, the positive delta on an absent level creates
level 41, and the no side is untouched throughout. -/
theorem claim1_snapshot_delta_scenario :
    c1_afterSnapshot.currentOrderbookData.map Orderbook.yes_bids =
      some [(40, 10)] ∧
    c1_afterSnapshot.currentOrderbookData.map Orderbook.no_bids =
      some [(55, 5)] ∧
    c1_afterDelta1.currentOrderbookData.map Orderbook.yes_bids = some [] ∧
    c1_final.currentOrderbookData.map Orderbook.yes_bids = some [(41, 7)] ∧
    c1_final.currentOrderbookData.map Orderbook.no_bids = some [(55, 5)] := by
  decide

/-- C2 (counterexample): in the reachable switch-race state — active
(subscribed) ticker `"B"`, while the loaded book still belongs to `"A"` —
a delayed delta carrying ticker `"A"` (which differs from the subscribed
ticker) is *applied*, mutating the local order book.  This refutes the
claim that every delta whose ticker differs from the currently
subscribed ticker leaves the book unchanged: the code fences on the
loaded book's ticker, not on `currentSubscribedTicker`. -/
theorem claim2_counterexample :
    fenceRaceState.currentSubscribedTicker = some "B" ∧
    delayedDeltaA.ticker = some "A" ∧
    (handleMarketUpdate fenceRaceState delayedDeltaA).currentOrderbookData ≠
      fenceRaceState.currentOrderbookData := by
  decide

/-- C2 (amended): an inbound update whose ticker differs from the ticker
of the *currently loaded order book* — or arriving while no book is
loaded — leaves the state unchanged.  In particular, once the book
tracked after a switch to `"B"` is `"B"`'s, a delayed delta carrying
`"A"` does not alter it. -/
theorem claim2_fencing_by_book_ticker (st : UIState) (msg : UpdateMsg) :
    (st.currentOrderbookData = none → handleMarketUpdate st msg = st) ∧
    ∀ book : Orderbook, st.currentOrderbookData = some book →
      msg.ticker ≠ some book.ticker → handleMarketUpdate st msg = st :=
  ⟨handleMarketUpdate_noBook st msg,
   fun book hb hne => handleMarketUpdate_fence st msg book hb hne⟩

/-- A book for ticker `"B"`, as loaded once the `orderbook` response for
the switched-to ticker has arrived. -/
def bookB : Orderbook :=
  { ticker := "B", yes_bids := [(60, 1)], no_bids := [],
    yes_price := none, no_price := none }

/-- The post-switch state in which `"B"`'s book has been loaded. -/
def switchedState : UIState :=
  { initialUIState with currentSubscribedTicker := some "B",
                        currentOrderbookData := some bookB }

/-- C2 witness: the fencing theorem applied in the post-switch state in
which `"B"`'s book has been loaded; the delayed `"A"` delta is
discarded. -/
theorem claim2_witness :
    handleMarketUpdate switchedState delayedDeltaA = switchedState :=
  (claim2_fencing_by_book_ticker switchedState delayedDeltaA).2
    bookB rfl (by decide)

/-- C3: a delta application (remove, in-place update, or
insert-and-resort) preserves the BookSide invariant — strictly
descending prices (hence pairwise distinct) and strictly positive
sizes — and consequently the invariant holds after every step of any
sequence of delta applications, covering in particular any sequence of
creation deltas with distinct prices. -/
theorem claim3_side_invariant_preserved (bids : List (Int × Int))
    (price deltaSize : Int) (h : SideInv bids) :
    SideInv (applyDeltaSide bids price deltaSize) ∧
    ((applyDeltaSide bids price deltaSize).map Prod.fst).Nodup ∧
    ∀ ds : List (Int × Int),
      SideInv (ds.foldl (fun b d => applyDeltaSide b d.1 d.2) bids) :=
  have h1 := applyDeltaSide_sideInv bids price deltaSize h
  ⟨h1, nodup_fst_of_sorted_lt h1.1, applyDeltaSide_foldl_sideInv bids h⟩

/-- C3 witness: the invariant theorem applied to the one-level side
`[(50,5)]` and the creation delta `(60, +3)`. -/
theorem claim3_witness :
    SideInv [((50 : Int), (5 : Int))] ∧
    SideInv (applyDeltaSide [(50, 5)] 60 3) ∧
    ((applyDeltaSide [(50, 5)] 60 3).map Prod.fst).Nodup :=
  ⟨by decide, (claim3_side_invariant_preserved [(50, 5)] 60 3 (by decide)).1,
   (claim3_side_invariant_preserved [(50, 5)] 60 3 (by decide)).2.1⟩

/-- C4 (counterexample): in the reachable switch-race state — subscribed
ticker `"B"`, loaded book still `"A"`'s — a snapshot carrying the active
(subscribed) ticker `"B"` is *discarded* instead of replacing the book:
the resulting yes side is not the snapshot's yes levels.  This refutes
the claim that a snapshot for the currently active ticker always fully
replaces both depth sides, for every prior book state. -/
theorem claim4_counterexample :
    fenceRaceState.currentSubscribedTicker = some "B" ∧
    snapshotForB.ticker = some "B" ∧
    handleMarketUpdate fenceRaceState snapshotForB = fenceRaceState ∧
    (handleMarketUpdate fenceRaceState snapshotForB).currentOrderbookData.map
        Orderbook.yes_bids ≠ some [(60, 1)] := by
  decide

/-- C4 (amended): a snapshot whose ticker equals the ticker of the
*currently loaded order book* (the code's fencing key) fully replaces
both depth sides with the snapshot's levels, regardless of what any
previously applied deltas had produced. -/
theorem claim4_snapshot_replaces (st : UIState) (book : Orderbook)
    (yes no : List (Int × Int)) (hne : book.ticker ≠ "")
    (hb : st.currentOrderbookData = some book) :
    (handleMarketUpdate st
        ⟨some book.ticker, .orderbookUpdate (.obSnapshot (some yes) (some no))⟩
      ).currentOrderbookData =
      some { book with yes_bids := yes, no_bids := no } :=
  handleMarketUpdate_snapshot st book yes no hne hb

/-- A book for `"X"` whose sides were produced by earlier deltas. -/
def bookXafterDeltas : Orderbook :=
  { ticker := "X", yes_bids := [(47, 3)], no_bids := [(12, 9)],
    yes_price := none, no_price := none }

/-- The state holding that book. -/
def preSnapshotState : UIState :=
  { initialUIState with currentOrderbookData := some bookXafterDeltas }

/-- C4 witness: the replacement theorem applied to a book for `"X"` whose
sides were produced by earlier deltas. -/
theorem claim4_witness :
    (handleMarketUpdate preSnapshotState
        ⟨some "X", .orderbookUpdate (.obSnapshot (some [(40, 10)]) (some [(55, 5)]))⟩
      ).currentOrderbookData =
      some { bookXafterDeltas with yes_bids := [(40, 10)],
                                   no_bids := [(55, 5)] } :=
  claim4_snapshot_replaces preSnapshotState bookXafterDeltas
    [(40, 10)] [(55, 5)] (by decide) rfl

theorem wsCloseIter_attempts (c : WSClient) :
    ∀ n, (wsCloseIter (wsHandleOpen c) n).reconnectAttempts = n := by
  intro n
  induction n with
  | zero => rfl
  | succ k ih => simp [wsCloseIter, wsHandleClose, ih]

/-- C5: with base delay 1000 ms, multiplier 2 and max delay 30000 ms, the
delay scheduled on the n-th consecutive close after a successful open
(n starting at 0) is `min 30000 (1000 * 2 ^ n)`; the successive delays
are 1000, 2000, 4000, 8000, 16000, 30000, 30000; and a successful open
resets the attempt counter to 0. -/
theorem claim5_backoff_sequence (c : WSClient) (n : Nat) :
    (wsHandleClose (wsCloseIter (wsHandleOpen c) n)).2 =
      min 30000 (1000 * 2 ^ n) ∧
    (wsHandleOpen c).reconnectAttempts = 0 ∧
    (List.range 7).map (fun k => (wsHandleClose (wsCloseIter (wsHandleOpen c) k)).2) =
      [1000, 2000, 4000, 8000, 16000, 30000, 30000] := by
  refine ⟨?_, rfl, ?_⟩
  · simp [wsHandleClose, wsCloseIter_attempts, RECONNECT_BASE_DELAY,
      RECONNECT_MAX_DELAY]
  · simp only [List.range_succ, List.range_zero, List.map_append,
      List.map_cons, List.map_nil, List.nil_append, List.cons_append,
      wsHandleClose, wsCloseIter_attempts, RECONNECT_BASE_DELAY,
      RECONNECT_MAX_DELAY]
    norm_num

/-- C6: a tombstone delta (`delta = 0`) at a price with no existing level
on the targeted side is the identity on the whole book state — both
sides (and every other field) are unchanged. -/
theorem claim6_tombstone_absent_identity (book : Orderbook) (side : String)
    (price : Int)
    (hfresh : ∀ x ∈ (if jsToLower side = "yes" then book.yes_bids
        else book.no_bids), x.1 ≠ price) :
    applyOrderbookDelta book ⟨some side, some price, some 0⟩ = book := by
  unfold applyOrderbookDelta
  simp only [Option.map_some']
  by_cases hempty : jsToLower side = ""
  · simp [hempty]
  · by_cases hyes : jsToLower side = "yes"
    · rw [if_pos hyes] at hfresh
      simp [hempty, hyes, applyDeltaSide_absent_zero book.yes_bids price hfresh]
    · rw [if_neg hyes] at hfresh
      simp [hempty, hyes, applyDeltaSide_absent_zero book.no_bids price hfresh]

/-- C6 witness: the tombstone theorem at a book quoting only level 40 on
the yes side, with the absent price 50. -/
theorem claim6_witness :
    applyOrderbookDelta
        { ticker := "X", yes_bids := [(40, 10)], no_bids := [],
          yes_price := none, no_price := none }
        ⟨some "yes", some 50, some 0⟩ =
      { ticker := "X", yes_bids := [(40, 10)], no_bids := [],
        yes_price := none, no_price := none } :=
  claim6_tombstone_absent_identity
    { ticker := "X", yes_bids := [(40, 10)], no_bids := [],
      yes_price := none, no_price := none }
    "yes" 50 (by decide)

/-! ### C7 concrete run: priority queue is never replayed -/

def cancelMsg : WsMessage :=
  { action := "cancel_order", data := [("order_id", JVal.str "O1")] }

/-- Connection lost: the socket is not OPEN. -/
def c7_state0 : ClientState :=
  { wsOpen := false, reconnectAttempts := 3, reconnectDelay := 4000,
    messageCount := 0, requestQueue := [], transmitted := [] }

def c7_queued : ClientState :=
  clientSend c7_state0 "cancel_order" [("order_id", JVal.str "O1")] true

def c7_requeued : ClientState :=
  clientSend c7_queued "cancel_order" [("order_id", JVal.str "O1")] true

def c7_afterOpen : ClientState := clientHandleOpen c7_requeued

/-- C7: while the connection is not OPEN, a non-priority send is a no-op
and a priority send is queued, de-duplicated by its action key — but the
queued priority request is NOT replayed on the next successful open:
`handleOpen` only issues the four initial-data requests, the queued
cancel is never transmitted, and the queue still holds it afterwards.
This evaluates the code at the failing input of the replay part of the
claim. -/
theorem claim7_queue_never_replayed :
    clientSend c7_state0 "get_balance" [] false = c7_state0 ∧
    c7_queued.transmitted = [] ∧
    c7_queued.requestQueue = [("cancel_order", cancelMsg)] ∧
    c7_requeued.requestQueue = [("cancel_order", cancelMsg)] ∧
    c7_afterOpen.requestQueue = [("cancel_order", cancelMsg)] ∧
    cancelMsg ∉ c7_afterOpen.transmitted ∧
    c7_afterOpen.transmitted.length = 4 := by
  decide

/-- C8 (counterexample): decoding a compressed binary frame (first byte
`0x01`) mutates the shared metrics state — `compressedCount` is
incremented — refuting the claim that decoding mutates no shared
state. -/
theorem claim8_counterexample :
    (parseMessage (fun _ => "") (fun s => s) (fun _ => "")
        (Frame.binary [1]) ⟨0, 0⟩).2 ≠ (⟨0, 0⟩ : DecodeMetrics) := by
  decide

/-- C8 (amended): the envelope returned by the decoder is a pure function
of the inbound frame — two decodes of the same bytes return the same
envelope regardless of the metrics state accumulated by prior decodes —
and decoding mutates no shared state except the metrics counters
(`compressedCount`, `bytesSaved`), which change only on a compressed
(0x01-prefixed binary) frame: text frames and non-0x01 binary frames
leave the metrics untouched. -/
theorem claim8_envelope_pure {J : Type} (inflate : List Nat → String)
    (jparse : String → J) (textDecode : List Nat → String) :
    (∀ (frame : Frame) (m1 m2 : DecodeMetrics),
      (parseMessage inflate jparse textDecode frame m1).1 =
        (parseMessage inflate jparse textDecode frame m2).1) ∧
    (∀ (s : String) (m : DecodeMetrics),
      (parseMessage inflate jparse textDecode (Frame.text s) m).2 = m) ∧
    (∀ (bytes : List Nat) (m : DecodeMetrics), bytes.head? ≠ some 1 →
      (parseMessage inflate jparse textDecode (Frame.binary bytes) m).2 = m) := by
  refine ⟨?_, fun s m => rfl, ?_⟩
  · intro frame m1 m2
    cases frame with
    | binary bytes =>
      by_cases h : bytes.head? = some 1 <;> simp [parseMessage, h]
    | text s => rfl
  · intro bytes m h
    simp [parseMessage, h]

/-- C8 witness: purity applied to a non-compressed binary frame at two
different metrics states, and the no-mutation clause discharged at the
frame `[0]`. -/
theorem claim8_witness :
    (parseMessage (fun _ => "") (fun s => s) (fun _ => "z")
        (Frame.binary [0]) ⟨0, 0⟩).1 =
      (parseMessage (fun _ => "") (fun s => s) (fun _ => "z")
        (Frame.binary [0]) ⟨5, 7⟩).1 ∧
    (parseMessage (fun _ => "") (fun s => s) (fun _ => "z")
        (Frame.binary [0]) ⟨5, 7⟩).2 = ⟨5, 7⟩ :=
  ⟨(claim8_envelope_pure (fun _ => "") (fun s => s) (fun _ => "z")).1
      (Frame.binary [0]) ⟨0, 0⟩ ⟨5, 7⟩,
   (claim8_envelope_pure (fun _ => "") (fun s => s) (fun _ => "z")).2.2
      [0] ⟨5, 7⟩ (by decide)⟩

/-- C9: for a binary frame whose first byte is `0x01` the decoder parses
the inflation of the remaining bytes; for any other binary frame it
parses the text-decoded bytes directly; a text frame is parsed directly;
and hence decoding a frame built by compressing a message and prefixing
`0x01` returns that message whenever inflation inverts the
compression. -/
theorem claim9_discriminator {J : Type} (inflate : List Nat → String)
    (jparse : String → J) (textDecode : List Nat → String)
    (m : DecodeMetrics) :
    (∀ bytes : List Nat, bytes.head? = some 1 →
      (parseMessage inflate jparse textDecode (Frame.binary bytes) m).1 =
        jparse (inflate (bytes.drop 1))) ∧
    (∀ bytes : List Nat, bytes.head? ≠ some 1 →
      (parseMessage inflate jparse textDecode (Frame.binary bytes) m).1 =
        jparse (textDecode bytes)) ∧
    (∀ s : String,
      (parseMessage inflate jparse textDecode (Frame.text s) m).1 = jparse s) ∧
    (∀ (deflate : String → List Nat) (s : String), inflate (deflate s) = s →
      (parseMessage inflate jparse textDecode
          (Frame.binary (1 :: deflate s)) m).1 = jparse s) := by
  refine ⟨?_, ?_, fun s => rfl, ?_⟩
  · intro bytes h
    simp [parseMessage, h]
  · intro bytes h
    simp [parseMessage, h]
  · intro deflate s hinv
    simp [parseMessage, hinv]

/-- C9 witness: the round-trip clause discharged at the concrete message
`"m"` with concrete inverse compression functions. -/
theorem claim9_witness :
    (parseMessage (fun _ => "m") (fun s => s) (fun _ => "")
        (Frame.binary (1 :: ([] : List Nat))) ⟨0, 0⟩).1 = "m" :=
  (claim9_discriminator (fun _ => "m") (fun s => s) (fun _ => "")
      ⟨0, 0⟩).2.2.2 (fun _ => []) "m" rfl

theorem sanitizeTicker_data (t : String) :
    (sanitizeTicker t).data = (jsToUpper (jsTrim t)).data.filter isTickerChar :=
  rfl

/-- C10: for every input string, `lookupTicker` either sends a lookup
request whose ticker is exactly the sanitized input — trimmed,
uppercased, with every character outside `A–Z`, `0–9`, `-` removed — of
length between 1 and 100, or sends nothing at all (empty input, or a
sanitized result that is empty or longer than 100 characters). -/
theorem claim10_lookup_sanitization (t : String) :
    lookupTicker t = none ∨
    ∃ s : String, lookupTicker t = some s ∧ s = sanitizeTicker t ∧
      s.data.all isTickerChar = true ∧ 1 ≤ s.length ∧ s.length ≤ 100 := by
  unfold lookupTicker
  by_cases h0 : t = ""
  · left; simp [h0]
  · by_cases h1 : sanitizeTicker t = "" ∨ (sanitizeTicker t).length > 100
    · left; simp [h0, h1]
    · right
      push_neg at h1
      refine ⟨sanitizeTicker t, ?_, rfl, ?_, ?_, h1.2⟩
      · simp only [h0, if_false, ite_false]
        rw [if_neg]
        push_neg
        exact h1
      · refine List.all_eq_true.mpr (fun x hx => ?_)
        rw [sanitizeTicker_data] at hx
        exact (List.mem_filter.mp hx).2
      · by_contra hlen
        push_neg at hlen
        have hz : (sanitizeTicker t).length = 0 := by omega
        have hd : (sanitizeTicker t).data = [] :=
          List.length_eq_zero.mp hz
        exact h1.1 (String.ext (by simp [hd]))
